import Mathlib

/-!
A shallow embedding of `pkg/controller/csr_check.go` from the
cluster-machine-approver repository, together with proofs about its
authorization logic.

Modelling conventions:
* `time.Time` values are modelled as `Int` (seconds); `time.Duration`
  constants become `Int` second counts.
* Go pointers that may be nil become `Option`.
* Functions returning `(T, error)` become `T × Option String` (the `String`
  is the error message; `none` means the Go error was nil).
* The Kubernetes API client, the TLS probe of the kubelet and x509 chain
  verification are external effects; they are modelled as oracle fields of
  an `Env` structure passed to the functions that perform them.
* `net.IP` and `url.URL` are foreign types of which the code observes only
  the textual form (and, for `net.IP`, the byte length used by the
  emptiness test); they are modelled by structures carrying exactly those
  observations.
-/

namespace CSRCheck

/-- Constant `nodeUser = "system:node"` from csr_check.go. -/
def nodeUser : String := "system:node"

/-- Constant `nodeGroup = "system:nodes"` from csr_check.go. -/
def nodeGroup : String := "system:nodes"

/-- Constant `nodeUserPrefix = nodeUser + ":"` from csr_check.go. -/
def nodeUserPrefixStr : String := nodeUser ++ ":"

/-- Constant `maxPendingDelta = time.Hour`, in seconds. -/
def maxPendingDelta : Int := 3600

/-- Constant `maxMachineClockSkew = 10 * time.Second`, in seconds. -/
def maxMachineClockSkew : Int := 10

/-- Constant `maxMachineDelta = 2 * time.Hour`, in seconds. -/
def maxMachineDelta : Int := 7200

/-- Constant `nodeBootstrapperUsername` from csr_check.go. -/
def nodeBootstrapperUsername : String :=
  "system:serviceaccount:openshift-machine-config-operator:node-bootstrapper"

/-- The elements of the `nodeBootstrapperGroups` string set from csr_check.go. -/
def nodeBootstrapperGroupsList : List String :=
  ["system:serviceaccounts:openshift-machine-config-operator",
   "system:serviceaccounts",
   "system:authenticated"]

/-- Go `strings.HasPrefix`, computed on the character lists so the kernel
can evaluate it. -/
def hasPrefixStr (s p : String) : Bool :=
  p.data.isPrefixOf s.data

/-- Go `strings.TrimPrefix`: drop `p` from the front of `s` when it is a
front segment of `s`, otherwise return `s` unchanged. -/
def trimPrefixStr (p s : String) : String :=
  if hasPrefixStr s p then ⟨s.data.drop p.data.length⟩ else s

/-- `sets.String` equality (`sets.NewString(a...).Equal(sets.NewString(b...))`):
the two lists contain the same elements, ignoring order and multiplicity. -/
def stringSetEq (a b : List String) : Bool :=
  a.all (fun x => b.contains x) && b.all (fun x => a.contains x)

/-- `sets.String.HasAll`: every item is a member of the set built from `l`. -/
def containsAll (l items : List String) : Bool :=
  items.all (fun x => l.contains x)

/-- `corev1.NodeAddressType`; the named constructors are the five values the
code matches on and `other` covers any other string value of the Go type. -/
inductive NodeAddressType where
  | hostName
  | externalIP
  | internalIP
  | externalDNS
  | internalDNS
  | other (val : String)
  deriving DecidableEq, Repr

/-- `corev1.NodeAddress`: a typed address string. -/
structure NodeAddress where
  type : NodeAddressType
  address : String
  deriving DecidableEq, Repr

/-- The fields of `machinev1.Machine` used by csr_check.go. -/
structure Machine where
  creationTimestamp : Int
  nodeRef : Option String
  addresses : List NodeAddress
  deriving DecidableEq, Repr

/-- A CSR status condition; the code only reads its `Type` string. -/
structure CSRCondition where
  type : String
  deriving DecidableEq, Repr

/-- The fields of `certificatesv1.CertificateSigningRequest` used by
csr_check.go.  `usages` holds the `Spec.Usages` strings. -/
structure CertificateSigningRequest where
  name : String
  username : String
  groups : List String
  usages : List String
  creationTimestamp : Int
  conditions : List CSRCondition
  deriving DecidableEq, Repr

/-- `net.IP` as observed by the code: its byte length (used by the
`len(san) == 0` test) and its `String()` form. -/
structure IP where
  rawLen : Nat
  str : String
  deriving DecidableEq, Repr

/-- `url.URL` as observed by the code: its `String()` form. -/
structure URL where
  str : String
  deriving DecidableEq, Repr

/-- The fields of the parsed `x509.CertificateRequest` used by csr_check.go. -/
structure CertificateRequest where
  subjectCommonName : String
  subjectOrganizations : List String
  dnsNames : List String
  emailAddresses : List String
  ipAddresses : List IP
  uris : List URL
  deriving DecidableEq, Repr

/-- The fields of `x509.Certificate` used by csr_check.go. -/
structure Certificate where
  subjectCommonName : String
  dnsNames : List String
  emailAddresses : List String
  ipAddresses : List IP
  uris : List URL
  deriving DecidableEq, Repr

/-- `x509.CertPool`; its contents are only consulted by the verification
oracle, so a tag suffices. -/
structure CertPool where
  poolId : Nat
  deriving DecidableEq, Repr

/-- `x509.VerifyOptions`; the code reads only `Roots`. -/
structure VerifyOptions where
  roots : Option CertPool
  deriving DecidableEq, Repr

/-- Outcome of the `c.Get(..., &corev1.Node{})` call used to test whether a
Node with the given name exists: the node exists, the API reported
not-found, or the API failed with some other error. -/
inductive NodeGetResult where
  | found
  | notFound
  | apiError (msg : String)
  deriving DecidableEq, Repr

/-- The external effects of csr_check.go, as oracles:
`nodeGet` is the Node existence lookup, `probe` is the outcome of
`getServingCert` (the TLS dial of the kubelet, as the pair
`(certificate, error)` it returns), and `verify` is the outcome of
`x509.Certificate.Verify` against the given options. -/
structure Env where
  nodeGet : String → NodeGetResult
  probe : String → Option Certificate × Option String
  verify : Certificate → VerifyOptions → Option String

/-- Modelled from the spec: the `NodeClientCert` configuration block; only
its `Disabled` boolean is read by csr_check.go and the type itself is
defined outside the provided source file. -/
structure NodeClientCertConfig where
  disabled : Bool
  deriving DecidableEq, Repr

/-- Modelled from the spec: `ClusterMachineApproverConfig`, defined outside
the provided source file; csr_check.go reads only `NodeClientCert.Disabled`. -/
structure ClusterMachineApproverConfig where
  nodeClientCert : NodeClientCertConfig
  deriving DecidableEq, Repr

/-- `inTimeSpan(start, end, check)`: `check.After(start) && check.Before(end)`;
both comparisons are strict. -/
def inTimeSpan (start tEnd check : Int) : Bool :=
  decide (start < check) && decide (check < tEnd)

/-- `isApproved`: some status condition has type `Approved`. -/
def isApproved (csr : CertificateSigningRequest) : Bool :=
  csr.conditions.any (fun c => c.type == "Approved")

/-- The counting loop of `recentlyPendingCSRs` over the CSR list, with the
window bounds fixed. -/
def countRecentlyPending (start tEnd : Int) : List CertificateSigningRequest → Nat
  | [] => 0
  | c :: rest =>
    if !inTimeSpan start tEnd c.creationTimestamp then
      countRecentlyPending start tEnd rest
    else if !isApproved c then
      countRecentlyPending start tEnd rest + 1
    else
      countRecentlyPending start tEnd rest

/-- `recentlyPendingCSRs`: count CSRs created within
`(now - maxPendingDelta, now + maxMachineClockSkew)` that carry no
`Approved` condition.  The injected clock `now()` is the parameter
`currentTime`. -/
def recentlyPendingCSRs (currentTime : Int)
    (csrs : List CertificateSigningRequest) : Nat :=
  countRecentlyPending (currentTime - maxPendingDelta)
    (currentTime + maxMachineClockSkew) csrs

/-- `isReqFromNodeBootstrapper`: username equals the bootstrapper username
and the group set equals the bootstrapper group set. -/
def isReqFromNodeBootstrapper (req : CertificateSigningRequest) : Bool :=
  req.username == nodeBootstrapperUsername &&
    stringSetEq nodeBootstrapperGroupsList req.groups

/-- `findMatchingMachineFromNodeRef`: first machine whose `Status.NodeRef`
is set and names `nodeName`. -/
def findMatchingMachineFromNodeRef (nodeName : String) :
    List Machine → Option Machine
  | [] => none
  | m :: rest =>
    if m.nodeRef = some nodeName then some m
    else findMatchingMachineFromNodeRef nodeName rest

/-- Whether some address in the list is an `InternalDNS` address equal to
`nodeName` (the inner loop of `findMatchingMachineFromInternalDNS`). -/
def hasInternalDNS (nodeName : String) : List NodeAddress → Bool
  | [] => false
  | a :: rest =>
    if a.type = NodeAddressType.internalDNS ∧ a.address = nodeName then true
    else hasInternalDNS nodeName rest

/-- `findMatchingMachineFromInternalDNS`: first machine advertising an
`InternalDNS` address equal to `nodeName`. -/
def findMatchingMachineFromInternalDNS (nodeName : String) :
    List Machine → Option Machine
  | [] => none
  | m :: rest =>
    if hasInternalDNS nodeName m.addresses then some m
    else findMatchingMachineFromInternalDNS nodeName rest

/-- Go `sort.Strings`: sort a list of strings into non-decreasing order. -/
def sortStrings (l : List String) : List String :=
  l.insertionSort (· ≤ ·)

/-- `equalStrings`: sort copies of both slices and compare elementwise. -/
def equalStrings (a b : List String) : Bool :=
  sortStrings a == sortStrings b

/-- `equalURLs`: unequal lengths are unequal; otherwise compare the sorted
`String()` forms elementwise. -/
def equalURLs (a b : List URL) : Bool :=
  if a.length ≠ b.length then false
  else sortStrings (a.map URL.str) == sortStrings (b.map URL.str)

/-- `equalIPAddresses`: unequal lengths are unequal; otherwise compare the
sorted `String()` forms elementwise. -/
def equalIPAddresses (a b : List IP) : Bool :=
  if a.length ≠ b.length then false
  else sortStrings (a.map IP.str) == sortStrings (b.map IP.str)

/-- `validateCSRContents(req, csr)`, returning `(nodeAsking, error)`.
An empty first component with a `none` second component is the
"does not appear to be a node serving cert" early return. -/
def validateCSRContents (req : CertificateSigningRequest)
    (csr : CertificateRequest) : String × Option String :=
  if ¬ hasPrefixStr req.username nodeUserPrefixStr then ("", none)
  else
    let nodeAsking := trimPrefixStr nodeUserPrefixStr req.username
    if nodeAsking.length = 0 then ("", none)
    else if req.groups.length < 2 then ("", some "Too few groups")
    else if ¬ containsAll req.groups [nodeGroup, "system:authenticated"] then
      ("", some ("groups not in system:authenticated and " ++ nodeGroup))
    else if req.usages.length ≠ 3 then ("", some "Too few usages")
    else if ¬ containsAll req.usages
        ["digital signature", "key encipherment", "server auth"] then
      ("", some "usage set is missing usages")
    else if csr.subjectCommonName ≠ req.username then
      ("", some ("Mismatched CommonName " ++ csr.subjectCommonName ++ " != "
        ++ req.username))
    else if ¬ csr.subjectOrganizations.contains nodeGroup then
      ("", some ("Organization does not include " ++ nodeGroup))
    else (nodeAsking, none)

/-- `authorizeServingRenewal(nodeName, csr, currentCert, options)`.
Chain verification (`currentCert.Verify(options)`) is the oracle `verify`.
Returns the Go error, `none` meaning the renewal is authorized. -/
def authorizeServingRenewal (verify : Certificate → VerifyOptions → Option String)
    (nodeName : String) (csr : Option CertificateRequest)
    (currentCert : Option Certificate) (options : VerifyOptions) :
    Option String :=
  match csr, currentCert with
  | some csr, some cert =>
    if options.roots = none then
      some "CSR, serving cert, or CA not provided"
    else
      match verify cert options with
      | some e => some e
      | none =>
        if cert.subjectCommonName ≠ nodeUser ++ ":" ++ nodeName then
          some "current serving cert has bad common name"
        else if cert.subjectCommonName ≠ csr.subjectCommonName then
          some "current serving cert and CSR common name mismatch"
        else if ¬ (equalStrings cert.dnsNames csr.dnsNames &&
              equalStrings cert.emailAddresses csr.emailAddresses &&
              equalIPAddresses cert.ipAddresses csr.ipAddresses &&
              equalURLs cert.uris csr.uris) then
          some "CSR Subject Alternate Name values do not match current certificate"
        else none
  | _, _ => some "CSR, serving cert, or CA not provided"

/-- Whether some address in the list is of DNS kind (InternalDNS,
ExternalDNS or Hostname) with value `san` (inner loop of the DNS SAN
check in `authorizeCSR`). -/
def hasDNSMatch (san : String) : List NodeAddress → Bool
  | [] => false
  | a :: rest =>
    if (a.type = NodeAddressType.internalDNS ∨
        a.type = NodeAddressType.externalDNS ∨
        a.type = NodeAddressType.hostName) ∧ a.address = san then true
    else hasDNSMatch san rest

/-- The `attemptedAddresses` collected when a DNS SAN matches no address:
the values of all DNS-kind addresses of the machine. -/
def dnsKindValues : List NodeAddress → List String
  | [] => []
  | a :: rest =>
    if a.type = NodeAddressType.internalDNS ∨
        a.type = NodeAddressType.externalDNS ∨
        a.type = NodeAddressType.hostName then
      a.address :: dnsKindValues rest
    else dnsKindValues rest

/-- Whether some address in the list is of IP kind (InternalIP or
ExternalIP) whose value equals the `String()` form of `san`. -/
def hasIPMatch (san : IP) : List NodeAddress → Bool
  | [] => false
  | a :: rest =>
    if (a.type = NodeAddressType.internalIP ∨
        a.type = NodeAddressType.externalIP) ∧ a.address = san.str then true
    else hasIPMatch san rest

/-- The `attemptedAddresses` collected when an IP SAN matches no address:
the values of all IP-kind addresses of the machine. -/
def ipKindValues : List NodeAddress → List String
  | [] => []
  | a :: rest =>
    if a.type = NodeAddressType.internalIP ∨
        a.type = NodeAddressType.externalIP then
      a.address :: ipKindValues rest
    else ipKindValues rest

/-- The DNS SAN loop of `authorizeCSR`: every non-empty DNS name must match
some DNS-kind address of `m`; the first failure produces the error. -/
def checkDNSSans (m : Machine) : List String → Option String
  | [] => none
  | san :: rest =>
    if san.length = 0 then checkDNSSans m rest
    else if hasDNSMatch san m.addresses then checkDNSSans m rest
    else some ("DNS name " ++ san ++ " not in machine names: "
      ++ String.intercalate " " (dnsKindValues m.addresses))

/-- The IP SAN loop of `authorizeCSR`: every non-empty IP (nonzero byte
length) must match some IP-kind address of `m` by textual form; the first
failure produces the error. -/
def checkIPSans (m : Machine) : List IP → Option String
  | [] => none
  | san :: rest =>
    if san.rawLen = 0 then checkIPSans m rest
    else if hasIPMatch san m.addresses then checkIPSans m rest
    else some ("IP address " ++ san.str ++ " not in machine addresses: "
      ++ String.intercalate " " (ipKindValues m.addresses))

/-- `authorizeNodeClientCSR(c, machines, req, csr)`.  The Node existence
lookup is the oracle `env.nodeGet`. -/
def authorizeNodeClientCSR (env : Env) (machines : List Machine)
    (req : CertificateSigningRequest) (csr : CertificateRequest) :
    Bool × Option String :=
  if ¬ isReqFromNodeBootstrapper req then (false, none)
  else
    let nodeName := trimPrefixStr nodeUserPrefixStr csr.subjectCommonName
    if nodeName.length = 0 then (false, none)
    else
      match env.nodeGet nodeName with
      | NodeGetResult.apiError _ =>
        (false, some ("failed get existing nodes " ++ nodeName))
      | NodeGetResult.found => (false, none)
      | NodeGetResult.notFound =>
        match findMatchingMachineFromInternalDNS nodeName machines with
        | none => (false, some ("failed to find machine for node " ++ nodeName))
        | some nodeMachine =>
          if nodeMachine.nodeRef.isSome then (false, none)
          else
            let start := nodeMachine.creationTimestamp - maxMachineClockSkew
            let tEnd := nodeMachine.creationTimestamp + maxMachineDelta
            if ¬ inTimeSpan start tEnd req.creationTimestamp then (false, none)
            else (true, none)

/-- Modelled from the spec: `isNodeClientCert` is called by `authorizeCSR`
but defined outside the provided source file.  Per the spec a CSR is a
node-client-bootstrap request iff the requester username is the
bootstrapper identity, the groups are exactly the bootstrapper group set,
the subject CN is the node-user prefix followed by a non-empty name, and
the usages are exactly digital-signature, key-encipherment and
client-auth. -/
def isNodeClientCert (req : CertificateSigningRequest)
    (csr : CertificateRequest) : Bool :=
  req.username == nodeBootstrapperUsername &&
  stringSetEq nodeBootstrapperGroupsList req.groups &&
  hasPrefixStr csr.subjectCommonName nodeUserPrefixStr &&
  decide ((trimPrefixStr nodeUserPrefixStr csr.subjectCommonName).length ≠ 0) &&
  stringSetEq req.usages ["digital signature", "key encipherment", "client auth"]

/-- The renewal block of `authorizeCSR`: a CA was supplied, `getServingCert`
(the oracle `env.probe`) returned a certificate and a nil error, and
`authorizeServingRenewal` returned nil. -/
def servingRenewalAuthorized (env : Env) (nodeAsking : String)
    (csr : CertificateRequest) (ca : Option CertPool) : Bool :=
  match ca with
  | none => false
  | some caPool =>
    match env.probe nodeAsking with
    | (some servingCert, none) =>
      (authorizeServingRenewal env.verify nodeAsking (some csr)
        (some servingCert) ⟨some caPool⟩).isNone
    | _ => false

/-- `authorizeCSR(c, config, machines, req, csr, ca)`: the top-level
authorization decision, returning `(approved, error)`. -/
def authorizeCSR (env : Env) (config : ClusterMachineApproverConfig)
    (machines : List Machine) (req : Option CertificateSigningRequest)
    (csr : Option CertificateRequest) (ca : Option CertPool) :
    Bool × Option String :=
  match req, csr with
  | some req, some csr =>
    if isNodeClientCert req csr then
      if config.nodeClientCert.disabled then
        (false, some ("CSR " ++ req.name
          ++ " for node client cert rejected as the flow is disabled"))
      else authorizeNodeClientCSR env machines req csr
    else
      let v := validateCSRContents req csr
      if v.1 = "" ∨ v.2 ≠ none then (false, none)
      else if servingRenewalAuthorized env v.1 csr ca then (true, none)
      else
        match findMatchingMachineFromNodeRef v.1 machines with
        | none => (false, some "Unable to find machine for node")
        | some targetMachine =>
          match checkDNSSans targetMachine csr.dnsNames with
          | some e => (false, some e)
          | none =>
            match checkIPSans targetMachine csr.ipAddresses with
            | some e => (false, some e)
            | none => (true, none)
  | _, _ => (false, none)

/-- The membership condition of the DNS SAN check: some machine address of
DNS kind carries exactly the requested name. -/
def machineCoversDNSSans (m : Machine) (csr : CertificateRequest) : Prop :=
  ∀ san ∈ csr.dnsNames, san ≠ "" →
    ∃ a ∈ m.addresses,
      (a.type = NodeAddressType.internalDNS ∨
       a.type = NodeAddressType.externalDNS ∨
       a.type = NodeAddressType.hostName) ∧ a.address = san

/-- The membership condition of the IP SAN check: some machine address of
IP kind carries exactly the textual form of the requested IP. -/
def machineCoversIPSans (m : Machine) (csr : CertificateRequest) : Prop :=
  ∀ san ∈ csr.ipAddresses, san.rawLen ≠ 0 →
    ∃ a ∈ m.addresses,
      (a.type = NodeAddressType.internalIP ∨
       a.type = NodeAddressType.externalIP) ∧ a.address = san.str

instance (m : Machine) (csr : CertificateRequest) :
    Decidable (machineCoversDNSSans m csr) :=
  inferInstanceAs (Decidable (∀ san ∈ csr.dnsNames, san ≠ "" →
    ∃ a ∈ m.addresses,
      (a.type = NodeAddressType.internalDNS ∨
       a.type = NodeAddressType.externalDNS ∨
       a.type = NodeAddressType.hostName) ∧ a.address = san))

instance (m : Machine) (csr : CertificateRequest) :
    Decidable (machineCoversIPSans m csr) :=
  inferInstanceAs (Decidable (∀ san ∈ csr.ipAddresses, san.rawLen ≠ 0 →
    ∃ a ∈ m.addresses,
      (a.type = NodeAddressType.internalIP ∨
       a.type = NodeAddressType.externalIP) ∧ a.address = san.str))

/-! ### Concrete fixtures for witnesses and counterexamples -/

/-- An environment whose Node lookups report not-found, whose kubelet probe
fails, and whose chain verification succeeds. -/
def plainEnv : Env :=
  { nodeGet := fun _ => NodeGetResult.notFound
    probe := fun _ => (none, some "connection refused")
    verify := fun _ _ => none }

/-- An environment whose Node lookups report that the Node exists. -/
def foundEnv : Env :=
  { nodeGet := fun _ => NodeGetResult.found
    probe := fun _ => (none, some "connection refused")
    verify := fun _ _ => none }

/-- A pre-join machine advertising the InternalDNS name `ip-10-0-1-5`. -/
def bootMachine : Machine :=
  { creationTimestamp := 1000
    nodeRef := none
    addresses := [⟨NodeAddressType.internalDNS, "ip-10-0-1-5"⟩] }

/-- A well-formed bootstrapper CSR created inside the bootstrap window. -/
def bootReq : CertificateSigningRequest :=
  { name := "csr-boot"
    username := nodeBootstrapperUsername
    groups := nodeBootstrapperGroupsList
    usages := ["digital signature", "key encipherment", "client auth"]
    creationTimestamp := 1300
    conditions := [] }

/-- The bootstrapper CSR of `bootReq`, created exactly at the right endpoint
`machine.createdAt + 2h` of the bootstrap window. -/
def lateBootReq : CertificateSigningRequest :=
  { bootReq with creationTimestamp := 8200 }

/-- The parsed certificate request paired with `bootReq`. -/
def bootCsr : CertificateRequest :=
  { subjectCommonName := "system:node:ip-10-0-1-5"
    subjectOrganizations := []
    dnsNames := [], emailAddresses := [], ipAddresses := [], uris := [] }

/-- A post-join machine whose NodeRef names `ip-10-0-1-6`. -/
def servMachine : Machine :=
  { creationTimestamp := 0
    nodeRef := some "ip-10-0-1-6"
    addresses := [⟨NodeAddressType.internalIP, "10.0.1.6"⟩,
                  ⟨NodeAddressType.internalDNS, "ip-10-0-1-6"⟩] }

/-- A well-formed node-serving CSR from `system:node:ip-10-0-1-6`. -/
def servReq : CertificateSigningRequest :=
  { name := "csr-serv"
    username := "system:node:ip-10-0-1-6"
    groups := ["system:nodes", "system:authenticated"]
    usages := ["digital signature", "key encipherment", "server auth"]
    creationTimestamp := 0
    conditions := [] }

/-- A parsed serving certificate request without SANs. -/
def servCsr : CertificateRequest :=
  { subjectCommonName := "system:node:ip-10-0-1-6"
    subjectOrganizations := ["system:nodes"]
    dnsNames := [], emailAddresses := [], ipAddresses := [], uris := [] }

/-- A parsed serving certificate request with a DNS SAN and an IP SAN that
the addresses of `servMachine` cover. -/
def servCsrSans : CertificateRequest :=
  { subjectCommonName := "system:node:ip-10-0-1-6"
    subjectOrganizations := ["system:nodes"]
    dnsNames := ["ip-10-0-1-6"], emailAddresses := [],
    ipAddresses := [⟨4, "10.0.1.6"⟩], uris := [] }

/-- The serving certificate currently presented by `ip-10-0-1-6`, matching
`servCsr`. -/
def renewCert : Certificate :=
  { subjectCommonName := "system:node:ip-10-0-1-6"
    dnsNames := [], emailAddresses := [], ipAddresses := [], uris := [] }

/-- An environment whose kubelet probe presents `renewCert` and whose chain
verification succeeds. -/
def renewEnv : Env :=
  { nodeGet := fun _ => NodeGetResult.notFound
    probe := fun _ => (some renewCert, none)
    verify := fun _ _ => none }

/-- A configuration with the node-client-cert flow enabled. -/
def config0 : ClusterMachineApproverConfig := ⟨⟨false⟩⟩

/-! ### Helper lemmas -/

theorem length_eq_zero_iff_empty (s : String) : s.length = 0 ↔ s = "" := by
  cases s with
  | mk data =>
    cases data with
    | nil => simp
    | cons c cs =>
      simp only [String.length, iff_false]
      constructor
      · intro h
        simp at h
      · intro h
        simpa using congrArg String.data h

theorem sortStrings_perm (l : List String) : (sortStrings l).Perm l :=
  List.perm_insertionSort _ l

theorem sortStrings_sorted (l : List String) :
    List.Sorted (· ≤ ·) (sortStrings l) :=
  List.sorted_insertionSort _ l

theorem sortStrings_eq_iff_perm {a b : List String} :
    sortStrings a = sortStrings b ↔ a.Perm b := by
  constructor
  · intro h
    exact (sortStrings_perm a).symm.trans (h ▸ sortStrings_perm b)
  · intro h
    exact List.eq_of_perm_of_sorted
      ((sortStrings_perm a).trans (h.trans (sortStrings_perm b).symm))
      (sortStrings_sorted a) (sortStrings_sorted b)

theorem equalStrings_iff_perm {a b : List String} :
    equalStrings a b = true ↔ a.Perm b := by
  rw [equalStrings, beq_iff_eq]
  exact sortStrings_eq_iff_perm

theorem equalURLs_iff_perm {a b : List URL} :
    equalURLs a b = true ↔ (a.map URL.str).Perm (b.map URL.str) := by
  rw [equalURLs]
  split
  · next h =>
    simp only [Bool.false_eq_true, false_iff]
    intro hp
    exact h (by simpa using hp.length_eq)
  · rw [beq_iff_eq]
    exact sortStrings_eq_iff_perm

theorem equalIPAddresses_iff_perm {a b : List IP} :
    equalIPAddresses a b = true ↔ (a.map IP.str).Perm (b.map IP.str) := by
  rw [equalIPAddresses]
  split
  · next h =>
    simp only [Bool.false_eq_true, false_iff]
    intro hp
    exact h (by simpa using hp.length_eq)
  · rw [beq_iff_eq]
    exact sortStrings_eq_iff_perm

theorem hasDNSMatch_iff (san : String) (addrs : List NodeAddress) :
    hasDNSMatch san addrs = true ↔ ∃ a ∈ addrs,
      (a.type = NodeAddressType.internalDNS ∨
       a.type = NodeAddressType.externalDNS ∨
       a.type = NodeAddressType.hostName) ∧ a.address = san := by
  induction addrs with
  | nil => simp [hasDNSMatch]
  | cons a rest ih =>
    by_cases h : (a.type = NodeAddressType.internalDNS ∨
        a.type = NodeAddressType.externalDNS ∨
        a.type = NodeAddressType.hostName) ∧ a.address = san
    · simp [hasDNSMatch, h]
    · simp [hasDNSMatch, h, ih]

theorem hasIPMatch_iff (san : IP) (addrs : List NodeAddress) :
    hasIPMatch san addrs = true ↔ ∃ a ∈ addrs,
      (a.type = NodeAddressType.internalIP ∨
       a.type = NodeAddressType.externalIP) ∧ a.address = san.str := by
  induction addrs with
  | nil => simp [hasIPMatch]
  | cons a rest ih =>
    by_cases h : (a.type = NodeAddressType.internalIP ∨
        a.type = NodeAddressType.externalIP) ∧ a.address = san.str
    · simp [hasIPMatch, h]
    · simp [hasIPMatch, h, ih]

theorem checkDNSSans_eq_none_iff (m : Machine) (sans : List String) :
    checkDNSSans m sans = none ↔
      ∀ san ∈ sans, san ≠ "" → hasDNSMatch san m.addresses = true := by
  induction sans with
  | nil => simp [checkDNSSans]
  | cons san rest ih =>
    by_cases h0 : san.length = 0
    · obtain rfl : san = "" := (length_eq_zero_iff_empty san).mp h0
      rw [checkDNSSans, if_pos h0, ih]
      simp
    · have hne : san ≠ "" := fun he => h0 (by rw [he]; rfl)
      by_cases h1 : hasDNSMatch san m.addresses = true
      · rw [checkDNSSans, if_neg h0, if_pos h1, ih]
        simp [h1, hne]
      · rw [checkDNSSans, if_neg h0, if_neg h1]
        constructor
        · intro hc
          exact absurd hc (Option.some_ne_none _)
        · intro hall
          exact (h1 (hall san (List.mem_cons_self san rest) hne)).elim

theorem checkIPSans_eq_none_iff (m : Machine) (sans : List IP) :
    checkIPSans m sans = none ↔
      ∀ san ∈ sans, san.rawLen ≠ 0 → hasIPMatch san m.addresses = true := by
  induction sans with
  | nil => simp [checkIPSans]
  | cons san rest ih =>
    by_cases h0 : san.rawLen = 0
    · rw [checkIPSans, if_pos h0, ih]
      simp [h0]
    · by_cases h1 : hasIPMatch san m.addresses = true
      · rw [checkIPSans, if_neg h0, if_pos h1, ih]
        simp [h1]
      · rw [checkIPSans, if_neg h0, if_neg h1]
        constructor
        · intro hc
          exact absurd hc (Option.some_ne_none _)
        · intro hall
          exact (h1 (hall san (List.mem_cons_self san rest) h0)).elim

theorem authorizeNodeClientCSR_cases (env : Env) (machines : List Machine)
    (req : CertificateSigningRequest) (csr : CertificateRequest) :
    (authorizeNodeClientCSR env machines req csr).1 = false ∨
    (authorizeNodeClientCSR env machines req csr).2 = none := by
  simp only [authorizeNodeClientCSR]
  repeat' split
  all_goals first | exact Or.inl rfl | exact Or.inr rfl

/-! ### Claim theorems -/

/-- C9: each of `equalStrings`, `equalIPAddresses` and `equalURLs` is
symmetric, reflexive, invariant under permutation of either argument, and
never reports lists of unequal length equal. -/
theorem sanComparisonUtilitiesProps :
    (∀ a b : List String, equalStrings a b = equalStrings b a) ∧
    (∀ a : List String, equalStrings a a = true) ∧
    (∀ a a' b : List String, a.Perm a' → equalStrings a b = equalStrings a' b) ∧
    (∀ a b b' : List String, b.Perm b' → equalStrings a b = equalStrings a b') ∧
    (∀ a b : List String, a.length ≠ b.length → equalStrings a b = false) ∧
    (∀ a b : List IP, equalIPAddresses a b = equalIPAddresses b a) ∧
    (∀ a : List IP, equalIPAddresses a a = true) ∧
    (∀ a a' b : List IP, a.Perm a' →
      equalIPAddresses a b = equalIPAddresses a' b) ∧
    (∀ a b b' : List IP, b.Perm b' →
      equalIPAddresses a b = equalIPAddresses a b') ∧
    (∀ a b : List IP, a.length ≠ b.length → equalIPAddresses a b = false) ∧
    (∀ a b : List URL, equalURLs a b = equalURLs b a) ∧
    (∀ a : List URL, equalURLs a a = true) ∧
    (∀ a a' b : List URL, a.Perm a' → equalURLs a b = equalURLs a' b) ∧
    (∀ a b b' : List URL, b.Perm b' → equalURLs a b = equalURLs a b') ∧
    (∀ a b : List URL, a.length ≠ b.length → equalURLs a b = false) := by
  refine ⟨?_, ?_, ?_, ?_, ?_, ?_, ?_, ?_, ?_, ?_, ?_, ?_, ?_, ?_, ?_⟩
  · intro a b
    rw [Bool.eq_iff_iff, equalStrings_iff_perm, equalStrings_iff_perm]
    exact ⟨List.Perm.symm, List.Perm.symm⟩
  · intro a
    exact equalStrings_iff_perm.mpr (List.Perm.refl a)
  · intro a a' b h
    rw [Bool.eq_iff_iff, equalStrings_iff_perm, equalStrings_iff_perm]
    exact ⟨h.symm.trans, h.trans⟩
  · intro a b b' h
    rw [Bool.eq_iff_iff, equalStrings_iff_perm, equalStrings_iff_perm]
    exact ⟨fun p => p.trans h, fun p => p.trans h.symm⟩
  · intro a b h
    rw [Bool.eq_false_iff]
    intro hc
    exact h (equalStrings_iff_perm.mp hc).length_eq
  · intro a b
    rw [Bool.eq_iff_iff, equalIPAddresses_iff_perm, equalIPAddresses_iff_perm]
    exact ⟨List.Perm.symm, List.Perm.symm⟩
  · intro a
    exact equalIPAddresses_iff_perm.mpr (List.Perm.refl _)
  · intro a a' b h
    rw [Bool.eq_iff_iff, equalIPAddresses_iff_perm, equalIPAddresses_iff_perm]
    exact ⟨(h.map IP.str).symm.trans, (h.map IP.str).trans⟩
  · intro a b b' h
    rw [Bool.eq_iff_iff, equalIPAddresses_iff_perm, equalIPAddresses_iff_perm]
    exact ⟨fun p => p.trans (h.map IP.str), fun p => p.trans (h.map IP.str).symm⟩
  · intro a b h
    rw [Bool.eq_false_iff]
    intro hc
    have := (equalIPAddresses_iff_perm.mp hc).length_eq
    simp only [List.length_map] at this
    exact h this
  · intro a b
    rw [Bool.eq_iff_iff, equalURLs_iff_perm, equalURLs_iff_perm]
    exact ⟨List.Perm.symm, List.Perm.symm⟩
  · intro a
    exact equalURLs_iff_perm.mpr (List.Perm.refl _)
  · intro a a' b h
    rw [Bool.eq_iff_iff, equalURLs_iff_perm, equalURLs_iff_perm]
    exact ⟨(h.map URL.str).symm.trans, (h.map URL.str).trans⟩
  · intro a b b' h
    rw [Bool.eq_iff_iff, equalURLs_iff_perm, equalURLs_iff_perm]
    exact ⟨fun p => p.trans (h.map URL.str), fun p => p.trans (h.map URL.str).symm⟩
  · intro a b h
    rw [Bool.eq_false_iff]
    intro hc
    have := (equalURLs_iff_perm.mp hc).length_eq
    simp only [List.length_map] at this
    exact h this

theorem isApproved_eq_false_iff (c : CertificateSigningRequest) :
    isApproved c = false ↔ ∀ cond ∈ c.conditions, cond.type ≠ "Approved" := by
  rw [Bool.eq_false_iff]
  simp [isApproved, List.any_eq_true]

/-- C7: `recentlyPendingCSRs` counts exactly the CSRs whose creation time
lies strictly inside the open window `(now - 1h, now + 10s)` and whose
status conditions contain no condition of type `Approved`. -/
theorem recentlyPendingCSRs_eq_countP (t : Int)
    (csrs : List CertificateSigningRequest) :
    recentlyPendingCSRs t csrs = csrs.countP (fun c =>
      decide ((t - 3600 < c.creationTimestamp ∧ c.creationTimestamp < t + 10) ∧
        ∀ cond ∈ c.conditions, cond.type ≠ "Approved")) := by
  unfold recentlyPendingCSRs
  simp only [maxPendingDelta, maxMachineClockSkew]
  induction csrs with
  | nil => rfl
  | cons c rest ih =>
    rw [countRecentlyPending, List.countP_cons, ih]
    have hspan : inTimeSpan (t - 3600) (t + 10) c.creationTimestamp = true ↔
        (t - 3600 < c.creationTimestamp ∧ c.creationTimestamp < t + 10) := by
      simp [inTimeSpan]
    by_cases h1 : t - 3600 < c.creationTimestamp ∧ c.creationTimestamp < t + 10
    · by_cases h2 : ∀ cond ∈ c.conditions, cond.type ≠ "Approved"
      · simp [hspan.mpr h1, (isApproved_eq_false_iff c).mpr h2, h1]
        rw [if_pos h2]
      · have happ : isApproved c = true := by
          cases h : isApproved c
          · exact absurd ((isApproved_eq_false_iff c).mp h) h2
          · rfl
        simp [hspan.mpr h1, happ, h1, h2]
    · have hfalse : inTimeSpan (t - 3600) (t + 10) c.creationTimestamp = false := by
        rw [Bool.eq_false_iff]
        intro hc
        exact h1 (hspan.mp hc)
      simp [hfalse, h1]

/-- C3: `authorizeServingRenewal` returns nil exactly when the current
certificate verifies against the options (whose roots are provided), its
common name is `system:node:` followed by the asking node name, the CSR
common name equals it, and the four SAN collections of CSR and current
certificate agree as multisets of canonical strings. -/
theorem authorizeServingRenewal_none_iff
    (verify : Certificate → VerifyOptions → Option String) (nodeName : String)
    (csr : CertificateRequest) (cert : Certificate) (options : VerifyOptions)
    (hroots : options.roots ≠ none) :
    authorizeServingRenewal verify nodeName (some csr) (some cert) options
        = none ↔
      (verify cert options = none ∧
       cert.subjectCommonName = "system:node:" ++ nodeName ∧
       csr.subjectCommonName = cert.subjectCommonName ∧
       (cert.dnsNames : Multiset String) = (csr.dnsNames : Multiset String) ∧
       (cert.emailAddresses : Multiset String)
          = (csr.emailAddresses : Multiset String) ∧
       ((cert.ipAddresses.map IP.str) : Multiset String)
          = ((csr.ipAddresses.map IP.str) : Multiset String) ∧
       ((cert.uris.map URL.str) : Multiset String)
          = ((csr.uris.map URL.str) : Multiset String)) := by
  have hsan : (equalStrings cert.dnsNames csr.dnsNames &&
      equalStrings cert.emailAddresses csr.emailAddresses &&
      equalIPAddresses cert.ipAddresses csr.ipAddresses &&
      equalURLs cert.uris csr.uris) = true ↔
      ((cert.dnsNames : Multiset String) = (csr.dnsNames : Multiset String) ∧
       (cert.emailAddresses : Multiset String)
          = (csr.emailAddresses : Multiset String) ∧
       ((cert.ipAddresses.map IP.str) : Multiset String)
          = ((csr.ipAddresses.map IP.str) : Multiset String) ∧
       ((cert.uris.map URL.str) : Multiset String)
          = ((csr.uris.map URL.str) : Multiset String)) := by
    simp only [Bool.and_eq_true, equalStrings_iff_perm, equalIPAddresses_iff_perm,
      equalURLs_iff_perm, Multiset.coe_eq_coe, and_assoc]
  have hpfx : nodeUser ++ ":" ++ nodeName = "system:node:" ++ nodeName := rfl
  rw [authorizeServingRenewal, if_neg hroots, hpfx]
  cases hv : verify cert options with
  | some e => simp [hv]
  | none =>
    by_cases h1 : cert.subjectCommonName = "system:node:" ++ nodeName
    · rw [if_neg (not_not_intro h1)]
      by_cases h2 : csr.subjectCommonName = cert.subjectCommonName
      · rw [if_neg (not_not_intro h2.symm)]
        by_cases h3 : (equalStrings cert.dnsNames csr.dnsNames &&
            equalStrings cert.emailAddresses csr.emailAddresses &&
            equalIPAddresses cert.ipAddresses csr.ipAddresses &&
            equalURLs cert.uris csr.uris) = true
        · rw [if_neg (not_not_intro h3)]
          obtain ⟨m1, m2, m3, m4⟩ := hsan.mp h3
          simp [h1, h2, m1, m2, m3, m4]
        · rw [if_pos h3]
          constructor
          · intro hc
            exact absurd hc (Option.some_ne_none _)
          · rintro ⟨-, -, -, m1, m2, m3, m4⟩
            exact (h3 (hsan.mpr ⟨m1, m2, m3, m4⟩)).elim
      · have hne : cert.subjectCommonName ≠ csr.subjectCommonName :=
          fun h => h2 h.symm
        rw [if_pos hne]
        constructor
        · intro hc
          exact absurd hc (Option.some_ne_none _)
        · rintro ⟨-, -, h2', -⟩
          exact (h2 h2').elim
    · rw [if_pos h1]
      constructor
      · intro hc
        exact absurd hc (Option.some_ne_none _)
      · rintro ⟨-, h1', -⟩
        exact (h1 h1').elim

theorem authorizeServingRenewal_none_iff_witness :
    authorizeServingRenewal (fun _ _ => none) "node-w"
      (some { subjectCommonName := "system:node:node-w"
              subjectOrganizations := []
              dnsNames := ["d1"], emailAddresses := [],
              ipAddresses := [], uris := [] })
      (some { subjectCommonName := "system:node:node-w"
              dnsNames := ["d1"], emailAddresses := [],
              ipAddresses := [], uris := [] })
      ⟨some ⟨0⟩⟩ = none :=
  (authorizeServingRenewal_none_iff (fun _ _ => none) "node-w" _ _ ⟨some ⟨0⟩⟩
    (by simp)).mpr ⟨rfl, by decide, by decide, rfl, rfl, rfl, rfl⟩

theorem sanComparisonUtilitiesProps_witness :
    equalStrings ["alpha", "beta"] ["gamma"] =
      equalStrings ["beta", "alpha"] ["gamma"] :=
  sanComparisonUtilitiesProps.2.2.1 ["alpha", "beta"] ["beta", "alpha"]
    ["gamma"] (List.Perm.swap "beta" "alpha" [])

/-- C1 counterexample: every condition of the claim holds at this input —
bootstrapper identity, non-empty trimmed node name, Node not found, a
machine matched by InternalDNS with no NodeRef, and the CSR creation time
inside the CLOSED interval (here exactly at the right endpoint
`machine.createdAt + 2h`) — yet `authorizeNodeClientCSR` denies, because
`inTimeSpan` excludes both endpoints. -/
theorem authorizeNodeClientCSR_closedWindow_cex :
    isReqFromNodeBootstrapper lateBootReq = true ∧
    trimPrefixStr nodeUserPrefixStr bootCsr.subjectCommonName = "ip-10-0-1-5" ∧
    plainEnv.nodeGet "ip-10-0-1-5" = NodeGetResult.notFound ∧
    findMatchingMachineFromInternalDNS "ip-10-0-1-5" [bootMachine]
      = some bootMachine ∧
    bootMachine.nodeRef = none ∧
    bootMachine.creationTimestamp - 10 ≤ lateBootReq.creationTimestamp ∧
    lateBootReq.creationTimestamp ≤ bootMachine.creationTimestamp + 7200 ∧
    authorizeNodeClientCSR plainEnv [bootMachine] lateBootReq bootCsr
      = (false, none) := by
  decide

/-- C1 (amended): with bootstrapper identity, a non-empty trimmed node
name, a not-found Node lookup, the InternalDNS-matched machine carrying no
NodeRef, and the CSR creation time STRICTLY inside the open interval
`(machine.createdAt - 10s, machine.createdAt + 2h)`, the bootstrap
authorizer approves with `(true, nil)`. -/
theorem authorizeNodeClientCSR_bootstrap_approves (env : Env)
    (machines : List Machine) (req : CertificateSigningRequest)
    (csr : CertificateRequest) (m : Machine)
    (hboot : isReqFromNodeBootstrapper req = true)
    (hname : trimPrefixStr nodeUserPrefixStr csr.subjectCommonName ≠ "")
    (hnode : env.nodeGet (trimPrefixStr nodeUserPrefixStr csr.subjectCommonName)
      = NodeGetResult.notFound)
    (hfind : findMatchingMachineFromInternalDNS
      (trimPrefixStr nodeUserPrefixStr csr.subjectCommonName) machines
      = some m)
    (href : m.nodeRef = none)
    (hlo : m.creationTimestamp - maxMachineClockSkew < req.creationTimestamp)
    (hhi : req.creationTimestamp < m.creationTimestamp + maxMachineDelta) :
    authorizeNodeClientCSR env machines req csr = (true, none) := by
  have hlen : ¬ (trimPrefixStr nodeUserPrefixStr csr.subjectCommonName).length
      = 0 := fun h => hname ((length_eq_zero_iff_empty _).mp h)
  simp [authorizeNodeClientCSR, hboot, hlen, hnode, hfind, href,
    inTimeSpan, hlo, hhi]

theorem authorizeNodeClientCSR_bootstrap_approves_witness :
    authorizeNodeClientCSR plainEnv [bootMachine] bootReq bootCsr
      = (true, none) :=
  authorizeNodeClientCSR_bootstrap_approves plainEnv [bootMachine] bootReq
    bootCsr bootMachine (by decide) (by decide) (by decide) (by decide)
    (by decide) (by decide) (by decide)

/-- C4 counterexample: a bootstrap-shape CSR (bootstrapper identity,
non-empty trimmed name, Node not found) matching no machine by InternalDNS
does NOT produce the claimed silent `(false, nil)`: the code returns a
non-nil error, requeueing the CSR. -/
theorem authorizeNodeClientCSR_noMachine_cex :
    isReqFromNodeBootstrapper bootReq = true ∧
    trimPrefixStr nodeUserPrefixStr bootCsr.subjectCommonName = "ip-10-0-1-5" ∧
    plainEnv.nodeGet "ip-10-0-1-5" = NodeGetResult.notFound ∧
    findMatchingMachineFromInternalDNS "ip-10-0-1-5" [] = none ∧
    authorizeNodeClientCSR plainEnv [] bootReq bootCsr
      = (false, some "failed to find machine for node ip-10-0-1-5") := by
  decide

/-- C4 (amended): for a bootstrap-shape CSR whose trimmed node name matches
no Machine by InternalDNS, `authorizeNodeClientCSR` returns `(false, err)`
with a non-nil error, so the CSR is requeued rather than silently
dropped. -/
theorem authorizeNodeClientCSR_noMachine_requeues (env : Env)
    (machines : List Machine) (req : CertificateSigningRequest)
    (csr : CertificateRequest)
    (hboot : isReqFromNodeBootstrapper req = true)
    (hname : trimPrefixStr nodeUserPrefixStr csr.subjectCommonName ≠ "")
    (hnode : env.nodeGet (trimPrefixStr nodeUserPrefixStr csr.subjectCommonName)
      = NodeGetResult.notFound)
    (hfind : findMatchingMachineFromInternalDNS
      (trimPrefixStr nodeUserPrefixStr csr.subjectCommonName) machines
      = none) :
    authorizeNodeClientCSR env machines req csr =
      (false, some ("failed to find machine for node "
        ++ trimPrefixStr nodeUserPrefixStr csr.subjectCommonName)) := by
  have hlen : ¬ (trimPrefixStr nodeUserPrefixStr csr.subjectCommonName).length
      = 0 := fun h => hname ((length_eq_zero_iff_empty _).mp h)
  simp [authorizeNodeClientCSR, hboot, hlen, hnode, hfind]

theorem authorizeNodeClientCSR_noMachine_requeues_witness :
    authorizeNodeClientCSR plainEnv [] bootReq bootCsr
      = (false, some ("failed to find machine for node "
        ++ trimPrefixStr nodeUserPrefixStr bootCsr.subjectCommonName)) :=
  authorizeNodeClientCSR_noMachine_requeues plainEnv [] bootReq bootCsr
    (by decide) (by decide) (by decide) (by decide)

/-- C6: in the bootstrap flow's Node-existence check, a Node that exists
yields `(false, nil)` (deny, no retry), any other API error yields
`(false, err)` with a non-nil error (requeue), and a not-found result lets
authorization proceed: if the remaining machine-correlation conditions
hold, the CSR is approved. -/
theorem authorizeNodeClientCSR_nodeExistence (env : Env)
    (machines : List Machine) (req : CertificateSigningRequest)
    (csr : CertificateRequest) (nm : String)
    (hnm : trimPrefixStr nodeUserPrefixStr csr.subjectCommonName = nm)
    (hboot : isReqFromNodeBootstrapper req = true)
    (hname : nm ≠ "") :
    (env.nodeGet nm = NodeGetResult.found →
      authorizeNodeClientCSR env machines req csr = (false, none)) ∧
    (∀ e, env.nodeGet nm = NodeGetResult.apiError e →
      authorizeNodeClientCSR env machines req csr =
        (false, some ("failed get existing nodes " ++ nm))) ∧
    (env.nodeGet nm = NodeGetResult.notFound →
      ∀ m, findMatchingMachineFromInternalDNS nm machines = some m →
        m.nodeRef = none →
        inTimeSpan (m.creationTimestamp - maxMachineClockSkew)
          (m.creationTimestamp + maxMachineDelta) req.creationTimestamp
          = true →
        authorizeNodeClientCSR env machines req csr = (true, none)) := by
  subst hnm
  have hlen : ¬ (trimPrefixStr nodeUserPrefixStr csr.subjectCommonName).length
      = 0 := fun h => hname ((length_eq_zero_iff_empty _).mp h)
  refine ⟨?_, ?_, ?_⟩
  · intro hfound
    simp [authorizeNodeClientCSR, hboot, hlen, hfound]
  · intro e herr
    simp [authorizeNodeClientCSR, hboot, hlen, herr]
  · intro hnf m hfind href htime
    simp [authorizeNodeClientCSR, hboot, hlen, hnf, hfind, href, htime]

theorem authorizeNodeClientCSR_nodeExistence_witness :
    authorizeNodeClientCSR foundEnv [bootMachine] bootReq bootCsr
      = (false, none) :=
  (authorizeNodeClientCSR_nodeExistence foundEnv [bootMachine] bootReq
    bootCsr "ip-10-0-1-5" (by decide) (by decide) (by decide)).1 rfl

/-- C2: in the fallback (machine-correlation) serving path — serving shape
validated, renewal path not authorized, target machine found by NodeRef —
`authorizeCSR` returns `(true, nil)` exactly when every non-empty DNS SAN
equals the value of some machine address of type InternalDNS, ExternalDNS
or Hostname and every non-empty IP SAN textually equals the value of some
machine address of type InternalIP or ExternalIP (email and URI SANs are
not consulted); when some check fails the result is a denial carrying a
non-nil error (requeue). -/
theorem authorizeCSR_serving_fallback_sans (env : Env)
    (config : ClusterMachineApproverConfig) (machines : List Machine)
    (req : CertificateSigningRequest) (csr : CertificateRequest)
    (ca : Option CertPool) (m : Machine)
    (hclient : isNodeClientCert req csr = false)
    (hvalid : (validateCSRContents req csr).2 = none)
    (hname : (validateCSRContents req csr).1 ≠ "")
    (hrenew : servingRenewalAuthorized env (validateCSRContents req csr).1
      csr ca = false)
    (hfind : findMatchingMachineFromNodeRef (validateCSRContents req csr).1
      machines = some m) :
    (authorizeCSR env config machines (some req) (some csr) ca = (true, none)
      ↔ machineCoversDNSSans m csr ∧ machineCoversIPSans m csr) ∧
    (¬ (machineCoversDNSSans m csr ∧ machineCoversIPSans m csr) →
      (authorizeCSR env config machines (some req) (some csr) ca).1 = false ∧
      (authorizeCSR env config machines (some req) (some csr) ca).2 ≠ none) := by
  have hcond : ¬ ((validateCSRContents req csr).1 = "" ∨
      (validateCSRContents req csr).2 ≠ none) := by
    rintro (h | h)
    · exact hname h
    · exact h hvalid
  have hres : authorizeCSR env config machines (some req) (some csr) ca =
      (match checkDNSSans m csr.dnsNames with
       | some e => (false, some e)
       | none =>
         match checkIPSans m csr.ipAddresses with
         | some e => (false, some e)
         | none => (true, none)) := by
    simp only [authorizeCSR]
    rw [if_neg (by simp [hclient]), if_neg hcond, if_neg (by simp [hrenew]),
      hfind]
  have hdns : checkDNSSans m csr.dnsNames = none ↔
      machineCoversDNSSans m csr := by
    unfold machineCoversDNSSans
    rw [checkDNSSans_eq_none_iff]
    simp only [hasDNSMatch_iff]
  have hip : checkIPSans m csr.ipAddresses = none ↔
      machineCoversIPSans m csr := by
    unfold machineCoversIPSans
    rw [checkIPSans_eq_none_iff]
    simp only [hasIPMatch_iff]
  rw [hres]
  cases hd : checkDNSSans m csr.dnsNames with
  | some e =>
    have hnd : ¬ machineCoversDNSSans m csr := by
      rw [← hdns, hd]
      simp
    constructor
    · constructor
      · intro hc
        exact absurd hc (by simp)
      · rintro ⟨hcd, -⟩
        exact (hnd hcd).elim
    · intro _
      exact ⟨rfl, by simp⟩
  | none =>
    have hcd : machineCoversDNSSans m csr := hdns.mp hd
    cases hi : checkIPSans m csr.ipAddresses with
    | some e =>
      have hni : ¬ machineCoversIPSans m csr := by
        rw [← hip, hi]
        simp
      constructor
      · constructor
        · intro hc
          exact absurd hc (by simp)
        · rintro ⟨-, hci⟩
          exact (hni hci).elim
      · intro _
        exact ⟨rfl, by simp⟩
    | none =>
      have hci : machineCoversIPSans m csr := hip.mp hi
      constructor
      · simp [hcd, hci]
      · intro hn
        exact (hn ⟨hcd, hci⟩).elim

theorem authorizeCSR_serving_fallback_sans_witness :
    authorizeCSR plainEnv config0 [servMachine] (some servReq)
      (some servCsrSans) none = (true, none) :=
  ((authorizeCSR_serving_fallback_sans plainEnv config0 [servMachine]
      servReq servCsrSans none servMachine (by decide) (by decide)
      (by decide) (by decide) (by decide)).1).mpr (by decide)

/-- C5 counterexample: a serving-shape CSR whose asking-name matches no
Machine by NodeRef (the snapshot is empty) is nevertheless approved
`(true, nil)` when a CA pool is supplied and the kubelet probe and renewal
check succeed, because the renewal fast path returns before the machine
lookup.  This refutes the claim's universal `(false, err)`. -/
theorem authorizeCSR_noNodeRefMachine_cex :
    isNodeClientCert servReq servCsr = false ∧
    validateCSRContents servReq servCsr = ("ip-10-0-1-6", none) ∧
    findMatchingMachineFromNodeRef "ip-10-0-1-6" [] = none ∧
    authorizeCSR renewEnv config0 [] (some servReq) (some servCsr)
      (some ⟨0⟩) = (true, none) := by
  decide

/-- C5 (amended): for a serving-shape CSR whose asking-name matches no
Machine by NodeRef, and for which the serving-renewal fast path did not
approve (no CA, failed probe, or failed renewal check), `authorizeCSR`
returns `(false, err)` with the fixed non-nil machine-lookup error, so the
CSR is requeued. -/
theorem authorizeCSR_noNodeRefMachine_requeues (env : Env)
    (config : ClusterMachineApproverConfig) (machines : List Machine)
    (req : CertificateSigningRequest) (csr : CertificateRequest)
    (ca : Option CertPool)
    (hclient : isNodeClientCert req csr = false)
    (hvalid : (validateCSRContents req csr).2 = none)
    (hname : (validateCSRContents req csr).1 ≠ "")
    (hrenew : servingRenewalAuthorized env (validateCSRContents req csr).1
      csr ca = false)
    (hfind : findMatchingMachineFromNodeRef (validateCSRContents req csr).1
      machines = none) :
    authorizeCSR env config machines (some req) (some csr) ca =
      (false, some "Unable to find machine for node") := by
  have hcond : ¬ ((validateCSRContents req csr).1 = "" ∨
      (validateCSRContents req csr).2 ≠ none) := by
    rintro (h | h)
    · exact hname h
    · exact h hvalid
  simp only [authorizeCSR]
  rw [if_neg (by simp [hclient]), if_neg hcond, if_neg (by simp [hrenew]),
    hfind]

theorem authorizeCSR_noNodeRefMachine_requeues_witness :
    authorizeCSR plainEnv config0 [] (some servReq) (some servCsr) none =
      (false, some "Unable to find machine for node") :=
  authorizeCSR_noNodeRefMachine_requeues plainEnv config0 [] servReq servCsr
    none (by decide) (by decide) (by decide) (by decide) (by decide)

/-- C8: `authorizeCSR` never returns approval together with a non-nil
error: every result either has `approved = false` or a nil error, so
`(true, err ≠ nil)` is impossible and approval is only emitted as
`(true, nil)`. -/
theorem authorizeCSR_error_implies_denied (env : Env)
    (config : ClusterMachineApproverConfig) (machines : List Machine)
    (req : Option CertificateSigningRequest)
    (csr : Option CertificateRequest) (ca : Option CertPool) :
    (authorizeCSR env config machines req csr ca).1 = false ∨
    (authorizeCSR env config machines req csr ca).2 = none := by
  cases req with
  | none => cases csr <;> exact Or.inl rfl
  | some req =>
    cases csr with
    | none => exact Or.inl rfl
    | some csr =>
      simp only [authorizeCSR]
      split
      · split
        · exact Or.inl rfl
        · exact authorizeNodeClientCSR_cases env machines req csr
      · repeat' split
        all_goals first | exact Or.inl rfl | exact Or.inr rfl

/-- C10: a nil CSR object or a nil parsed request makes `authorizeCSR`
return `(false, nil)` immediately: no approval and no error. -/
theorem authorizeCSR_nil_guard :
    (∀ env config machines csr ca,
      authorizeCSR env config machines none csr ca = (false, none)) ∧
    (∀ env config machines req ca,
      authorizeCSR env config machines req none ca = (false, none)) := by
  constructor
  · intro env config machines csr ca
    cases csr <;> rfl
  · intro env config machines req ca
    cases req <;> rfl

end CSRCheck
